import Mathlib

/-!
# Verification of the lazyfile application state machine

A shallow embedding of the `lazyfile` terminal client's core: the keyboard
dispatcher (`src/app/handler.rs`), the login modal (`src/ui/widgets/login_modal.rs`),
the credential model (`src/auth/credentials.rs`) and the authentication manager
(`src/auth/manager.rs`).

Components of the repository whose source files are not available
(`src/app/state.rs` with the `App` aggregate and its `load_files` / `load_remotes`
helpers, `src/ui/widgets/confirm_modal.rs`, `src/ui/widgets/create_remote_modal.rs`,
`src/error.rs`, and the rclone RC client) are modelled from the specification;
each such definition carries a doc comment starting with `Modelled from the spec:`.

External effects (daemon RPC calls, keyring writes) are modelled by an
environment record `Env` supplying the outcome of each call; handlers return the
updated state together with the error they propagate (a Rust `Err(e)` return),
so that mutations made before an early `?` return are preserved, exactly as with
a `&mut App` in Rust.
-/

namespace Lazyfile

/-- Errors of the application (`LazyFileError`). The `unauthorized` variant is
the authorization-denied outcome (`LazyFileError::Unauthorized`) that handlers
match on; every other failure is collapsed into `other`/`keyring` with its
display message. -/
inductive LFError where
  | unauthorized : LFError
  | keyring (msg : String) : LFError
  | other (msg : String) : LFError
  deriving DecidableEq, Repr

/-- Modelled from the spec: the `Display` rendering of errors lives in
`src/error.rs`, which is not among the sources; claims depend only on whether a
message is set, never on its exact text. -/
def LFError.message : LFError → String
  | .unauthorized => "Unauthorized"
  | .keyring m => m
  | .other m => m

/-- `CredentialsType` from `src/auth/credentials.rs`. -/
inductive CredentialsType where
  | basic : CredentialsType
  | bearer : CredentialsType
  deriving DecidableEq, Repr

/-- `Credentials` from `src/auth/credentials.rs`. -/
structure Credentials where
  auth_type : CredentialsType
  username : String
  password : String
  remote : Option String
  deriving DecidableEq, Repr

/-- `Credentials::basic`. -/
def Credentials.basic (username password : String) (remote : Option String) :
    Credentials :=
  { auth_type := .basic, username := username, password := password, remote := remote }

/-- `Credentials::bearer`. -/
def Credentials.bearer (token : String) (remote : Option String) : Credentials :=
  { auth_type := .bearer, username := "", password := token, remote := remote }

/-- `Credentials::keyring_key`: `format!("lazyfile-{}", remote)` for a
per-remote credential, the fixed `"lazyfile-daemon"` otherwise. -/
def Credentials.keyring_key (c : Credentials) : String :=
  match c.remote with
  | some remote => "lazyfile-" ++ remote
  | none => "lazyfile-daemon"

/-- `LoginField` from `src/ui/widgets/login_modal.rs`. -/
inductive LoginField where
  | username : LoginField
  | password : LoginField
  | token : LoginField
  deriving DecidableEq, Repr

/-- `LoginModal` state from `src/ui/widgets/login_modal.rs`. -/
structure LoginModal where
  auth_type : CredentialsType
  username : String
  password : String
  focus_field : LoginField
  error : Option String
  is_password_masked : Bool
  deriving DecidableEq, Repr

/-- `LoginModal::new_basic`. -/
def LoginModal.new_basic : LoginModal :=
  { auth_type := .basic, username := "", password := "",
    focus_field := .username, error := none, is_password_masked := true }

/-- `LoginModal::new_bearer`. -/
def LoginModal.new_bearer : LoginModal :=
  { auth_type := .bearer, username := "", password := "",
    focus_field := .token, error := none, is_password_masked := false }

/-- `LoginModal::next_field`. -/
def LoginModal.next_field (m : LoginModal) : LoginModal :=
  { m with
    focus_field :=
      match m.auth_type with
      | .basic =>
        match m.focus_field with
        | .username => .password
        | .password => .username
        | .token => .username
      | .bearer => .token }

/-- `LoginModal::prev_field`. -/
def LoginModal.prev_field (m : LoginModal) : LoginModal :=
  { m with
    focus_field :=
      match m.auth_type with
      | .basic =>
        match m.focus_field with
        | .username => .password
        | .password => .username
        | .token => .password
      | .bearer => .token }

/-- `LoginModal::input_char`. -/
def LoginModal.input_char (m : LoginModal) (c : Char) : LoginModal :=
  match m.focus_field with
  | .username => { m with username := m.username.push c }
  | .password => { m with password := m.password.push c }
  | .token => { m with password := m.password.push c }

/-- `LoginModal::backspace` (`String::pop` removes the last character). -/
def LoginModal.backspace (m : LoginModal) : LoginModal :=
  match m.focus_field with
  | .username => { m with username := String.mk m.username.data.dropLast }
  | .password => { m with password := String.mk m.password.data.dropLast }
  | .token => { m with password := String.mk m.password.data.dropLast }

/-- `LoginModal::is_valid`. -/
def LoginModal.is_valid (m : LoginModal) : Bool :=
  match m.auth_type with
  | .basic => !m.username.isEmpty && !m.password.isEmpty
  | .bearer => !m.password.isEmpty

/-- `LoginModal::toggle_password_visibility`. -/
def LoginModal.toggle_password_visibility (m : LoginModal) : LoginModal :=
  { m with is_password_masked := !m.is_password_masked }

/-- Modelled from the spec: `src/ui/widgets/confirm_modal.rs` is not among the
sources. The spec gives the Confirm modal a `title`, a `message` and a
`confirmed : bool` binary choice defaulting to the safe (not-confirmed) side. -/
structure ConfirmModal where
  title : String
  message : String
  confirmed : Bool
  deriving DecidableEq, Repr

/-- Modelled from the spec: `ConfirmModal::new` starts on the safe,
not-confirmed side. -/
def ConfirmModal.new (title message : String) : ConfirmModal :=
  { title := title, message := message, confirmed := false }

/-- Modelled from the spec: `ConfirmModal::toggle` flips the binary choice. -/
def ConfirmModal.toggle (m : ConfirmModal) : ConfirmModal :=
  { m with confirmed := !m.confirmed }

/-- Modelled from the spec: `ConfirmModal::is_confirmed` reads the choice. -/
def ConfirmModal.is_confirmed (m : ConfirmModal) : Bool :=
  m.confirmed

/-- `CreateRemoteMode` (used by `src/app/handler.rs`). -/
inductive CreateRemoteMode where
  | create : CreateRemoteMode
  | edit : CreateRemoteMode
  deriving DecidableEq, Repr

/-- Modelled from the spec: the Create/Edit modal's focus field cycles over
its three input fields (name, type, optional path). -/
inductive CreateField where
  | name : CreateField
  | remoteType : CreateField
  | path : CreateField
  deriving DecidableEq, Repr

/-- Modelled from the spec: `src/ui/widgets/create_remote_modal.rs` is not among
the sources. Fields per the spec: `mode`, `name`, `remote_type`, `path`
(optional parameter), `focus_field`, `error`. -/
structure CreateRemoteModal where
  mode : CreateRemoteMode
  name : String
  remote_type : String
  path : String
  focus_field : CreateField
  error : Option String
  deriving DecidableEq, Repr

/-- Modelled from the spec: `CreateRemoteModal::new` builds an empty form in
the given mode. -/
def CreateRemoteModal.new (mode : CreateRemoteMode) : CreateRemoteModal :=
  { mode := mode, name := "", remote_type := "", path := "",
    focus_field := .name, error := none }

/-- `CreateRemoteModal::with_name` (builder used by `handle_edit_remote`). -/
def CreateRemoteModal.with_name (m : CreateRemoteModal) (n : String) :
    CreateRemoteModal :=
  { m with name := n }

/-- `CreateRemoteModal::with_type` (builder used by `handle_edit_remote`). -/
def CreateRemoteModal.with_type (m : CreateRemoteModal) (t : String) :
    CreateRemoteModal :=
  { m with remote_type := t }

/-- Modelled from the spec: field cycling of the Create/Edit modal. -/
def CreateRemoteModal.next_field (m : CreateRemoteModal) : CreateRemoteModal :=
  { m with
    focus_field :=
      match m.focus_field with
      | .name => .remoteType
      | .remoteType => .path
      | .path => .name }

/-- Modelled from the spec: reverse field cycling of the Create/Edit modal. -/
def CreateRemoteModal.prev_field (m : CreateRemoteModal) : CreateRemoteModal :=
  { m with
    focus_field :=
      match m.focus_field with
      | .name => .path
      | .remoteType => .name
      | .path => .remoteType }

/-- Modelled from the spec: character input goes to the focused field. -/
def CreateRemoteModal.input_char (m : CreateRemoteModal) (c : Char) :
    CreateRemoteModal :=
  match m.focus_field with
  | .name => { m with name := m.name.push c }
  | .remoteType => { m with remote_type := m.remote_type.push c }
  | .path => { m with path := m.path.push c }

/-- Modelled from the spec: backspace removes the last character of the
focused field. -/
def CreateRemoteModal.backspace (m : CreateRemoteModal) : CreateRemoteModal :=
  match m.focus_field with
  | .name => { m with name := String.mk m.name.data.dropLast }
  | .remoteType => { m with remote_type := String.mk m.remote_type.data.dropLast }
  | .path => { m with path := String.mk m.path.data.dropLast }

/-- Modelled from the spec: validity requires non-empty `name` and
`remote_type`. -/
def CreateRemoteModal.is_valid (m : CreateRemoteModal) : Bool :=
  !m.name.isEmpty && !m.remote_type.isEmpty

/-- `Panel` from `src/app/state.rs` (used throughout `handler.rs`). -/
inductive Panel where
  | remotes : Panel
  | files : Panel
  deriving DecidableEq, Repr

/-- Modelled from the spec: a directory entry returned by the rclone client
(whose source is not available) — `entries{name, is_dir}`. -/
structure FileItem where
  name : String
  is_dir : Bool
  deriving DecidableEq, Repr

/-- Modelled from the spec: the rclone RC client's credential slot —
`install_credentials` / `clear_credentials` are synchronous with no failure
mode; the client source is not available. -/
structure RcloneClient where
  credentials : Option Credentials
  deriving DecidableEq, Repr

/-- `RcloneClient::set_credentials`. -/
def RcloneClient.set_credentials (c : RcloneClient) (creds : Credentials) :
    RcloneClient :=
  { c with credentials := some creds }

/-- `RcloneClient::clear_credentials`. -/
def RcloneClient.clear_credentials (c : RcloneClient) : RcloneClient :=
  { c with credentials := none }

/-- `AuthMode` from `src/auth/manager.rs`. -/
inductive AuthMode where
  | requireOnStartup : AuthMode
  | onDemand : AuthMode
  | both : AuthMode
  deriving DecidableEq, Repr

/-- `AuthManager` from `src/auth/manager.rs`. -/
structure AuthManager where
  daemon_credentials : Option Credentials
  remote_credentials : List (String × Credentials)
  auth_mode : AuthMode
  deriving DecidableEq, Repr

/-- The outcomes of the external collaborators' calls for one key event: the
daemon RPCs issued by the rclone client and the keyring write. Each field gives
the result the call would return, keyed by its arguments. -/
structure Env where
  listRemotes : Except LFError (List String)
  listDirectory : String → String → Except LFError (List FileItem)
  createRemote : String → String → List (String × String) → Except LFError Unit
  updateRemote : String → List (String × String) → Except LFError Unit
  deleteRemote : String → Except LFError Unit
  keyringStore : String → Except LFError Unit

/-- `AuthManager::store_in_keyring`: serializes the credentials (which cannot
fail for this type) and writes them under `keyring_key`; the keyring itself is
the external collaborator supplied by `Env`. -/
def AuthManager.store_in_keyring (_m : AuthManager) (env : Env)
    (c : Credentials) : Except LFError Unit :=
  env.keyringStore c.keyring_key

/-- `AuthManager::set_daemon_credentials`: a keyring-store failure is only
logged (`error!`), never returned — the function always stores the credentials
in memory and returns `Ok(())`. -/
def AuthManager.set_daemon_credentials (m : AuthManager) (env : Env)
    (c : Credentials) : AuthManager × Except LFError Unit :=
  let _storeOutcome := m.store_in_keyring env c
  ({ m with daemon_credentials := some c }, Except.ok ())

/-- Index of the last `'/'` in a character list (`str::rfind('/')`). -/
def lastSlashIdx : List Char → Option Nat
  | [] => none
  | c :: rest =>
    match lastSlashIdx rest with
    | some i => some (i + 1)
    | none => if c = '/' then some 0 else none

/-- The path-revert step shared by `handle_enter` and `handle_backspace`:
`if let Some(i) = path.rfind(slash) { path.truncate(i) } else { path.clear() }`. -/
def truncateAtLastSlash (s : String) : String :=
  match lastSlashIdx s.data with
  | some i => String.mk (s.data.take i)
  | none => ""

/-- The `App` aggregate from `src/app/state.rs` (file not among the sources;
fields are those the spec's data model lists and `handler.rs` uses). -/
@[ext]
structure App where
  running : Bool
  focused_panel : Panel
  remotes : List String
  remotes_selected : Nat
  current_remote : Option String
  current_path : String
  files : List FileItem
  files_selected : Nat
  login_modal : Option LoginModal
  confirm_modal : Option ConfirmModal
  create_remote_modal : Option CreateRemoteModal
  pending_delete_remote : Option String
  client : RcloneClient
  auth_manager : AuthManager
  deriving DecidableEq

/-- Modelled from the spec: `App::load_remotes` (in the missing
`src/app/state.rs`) fetches the remote list and stores it, clamping the
selection to the valid range; a failure propagates without touching the list. -/
def App.load_remotes (app : App) (env : Env) : App × Option LFError :=
  match env.listRemotes with
  | .ok l =>
      let sel := if l.isEmpty then 0 else min app.remotes_selected (l.length - 1)
      ({ app with remotes := l, remotes_selected := sel }, none)
  | .error e => (app, some e)

/-- Modelled from the spec: `App::load_files` (in the missing
`src/app/state.rs`) lists `current_path` of `current_remote` and stores the
entries, clamping the selection; a failure propagates without touching the
list; without a current remote there is nothing to list. -/
def App.load_files (app : App) (env : Env) : App × Option LFError :=
  match app.current_remote with
  | none => (app, none)
  | some remote =>
    match env.listDirectory remote app.current_path with
    | .ok l =>
        let sel := if l.isEmpty then 0 else min app.files_selected (l.length - 1)
        ({ app with files := l, files_selected := sel }, none)
    | .error e => (app, some e)

/-- Modelled from the spec: `App::navigate_down` moves the focused list's
selection down by one, clamped to bounds. -/
def App.navigate_down (app : App) : App :=
  match app.focused_panel with
  | .remotes =>
      if app.remotes.isEmpty then app
      else { app with remotes_selected := min (app.remotes_selected + 1) (app.remotes.length - 1) }
  | .files =>
      if app.files.isEmpty then app
      else { app with files_selected := min (app.files_selected + 1) (app.files.length - 1) }

/-- Modelled from the spec: `App::navigate_up` moves the focused list's
selection up by one, clamped at zero. -/
def App.navigate_up (app : App) : App :=
  match app.focused_panel with
  | .remotes => { app with remotes_selected := app.remotes_selected - 1 }
  | .files => { app with files_selected := app.files_selected - 1 }

/-- Modelled from the spec: `App::switch_panel` toggles the focused panel. -/
def App.switch_panel (app : App) : App :=
  match app.focused_panel with
  | .remotes => { app with focused_panel := .files }
  | .files => { app with focused_panel := .remotes }

/-- The key codes `handler.rs` distinguishes (`crossterm::event::KeyCode`);
`otherKey` stands for every code falling into a `_ => {}` arm. -/
inductive KeyCode where
  | char (c : Char) : KeyCode
  | down : KeyCode
  | up : KeyCode
  | tab : KeyCode
  | backTab : KeyCode
  | enter : KeyCode
  | backspace : KeyCode
  | esc : KeyCode
  | left : KeyCode
  | right : KeyCode
  | otherKey : KeyCode
  deriving DecidableEq, Repr

namespace Handler

/-- `Handler::handle_delete_remote`: opens the delete-confirmation modal seeded
with the selected remote and records the pending delete target. -/
def handle_delete_remote (app : App) : App :=
  match app.remotes.get? app.remotes_selected with
  | some remote =>
      { app with
        pending_delete_remote := some remote,
        confirm_modal := some (ConfirmModal.new "Delete Remote" ("Delete '" ++ remote ++ "'?")) }
  | none => app

/-- `Handler::handle_edit_remote`: opens the Create/Edit modal in Edit mode,
pre-filled with the selected remote's name and the type `"local"`. -/
def handle_edit_remote (app : App) : App :=
  match app.remotes.get? app.remotes_selected with
  | some remote =>
      { app with
        create_remote_modal :=
          some (((CreateRemoteModal.new .edit).with_name remote).with_type "local") }
  | none => app

/-- `Handler::handle_confirm_key`. On `Enter`, `modal.is_confirmed() &&
let Some(remote) = app.pending_delete_remote.take()` short-circuits: the
pending target is taken only when the choice is confirmed, and the two `?`
returns on `delete_remote` / `load_remotes` skip the `confirm_modal = None`
assignment. -/
def handle_confirm_key (app : App) (env : Env) (key : KeyCode) :
    App × Option LFError :=
  match app.confirm_modal with
  | none => (app, none)
  | some modal =>
    match key with
    | .esc => ({ app with confirm_modal := none, pending_delete_remote := none }, none)
    | .tab => ({ app with confirm_modal := some modal.toggle }, none)
    | .right => ({ app with confirm_modal := some modal.toggle }, none)
    | .left => ({ app with confirm_modal := some modal.toggle }, none)
    | .char c =>
        if c = 'y' ∨ c = 'n' then
          let confirmed := c = 'y'
          if confirmed ≠ (modal.is_confirmed = true) then
            ({ app with confirm_modal := some modal.toggle }, none)
          else (app, none)
        else (app, none)
    | .enter =>
        if modal.is_confirmed then
          match app.pending_delete_remote with
          | some remote =>
            let app1 := { app with pending_delete_remote := none }
            match env.deleteRemote remote with
            | .error e => (app1, some e)
            | .ok _ =>
              match app1.load_remotes env with
              | (app2, some e) => (app2, some e)
              | (app2, none) => ({ app2 with confirm_modal := none }, none)
          | none => ({ app with confirm_modal := none }, none)
        else ({ app with confirm_modal := none }, none)
    | _ => (app, none)

/-- `Handler::handle_enter`: select the highlighted remote (Remotes panel) or
descend into the highlighted directory (Files panel), with login-modal
takeover and rollback on `Unauthorized`. -/
def handle_enter (app : App) (env : Env) : App × Option LFError :=
  match app.focused_panel with
  | .remotes =>
    match app.remotes.get? app.remotes_selected with
    | none => (app, none)
    | some remote =>
      let app1 := { app with current_remote := some remote, current_path := "" }
      match app1.load_files env with
      | (app2, none) => ({ app2 with focused_panel := .files }, none)
      | (app2, some .unauthorized) =>
          ({ app2 with login_modal := some LoginModal.new_basic, current_remote := none }, none)
      | (app2, some e) => (app2, some e)
  | .files =>
    match app.files.get? app.files_selected with
    | none => (app, none)
    | some item =>
      if item.is_dir then
        let newPath :=
          if app.current_path.isEmpty then "/" ++ item.name
          else app.current_path ++ "/" ++ item.name
        let app1 := { app with current_path := newPath }
        match app1.load_files env with
        | (app2, none) => (app2, none)
        | (app2, some .unauthorized) =>
            let app3 := { app2 with
              login_modal := some LoginModal.new_basic,
              current_path := truncateAtLastSlash app2.current_path }
            (app3, none)
        | (app2, some e) => (app2, some e)
      else (app, none)

/-- `Handler::handle_backspace`: go to the parent directory, or back to the
Remotes panel from the remote root. -/
def handle_backspace (app : App) (env : Env) : App × Option LFError :=
  match app.focused_panel with
  | .files =>
    if !app.current_path.isEmpty then
      let app1 := { app with current_path := truncateAtLastSlash app.current_path }
      app1.load_files env
    else
      ({ app with current_remote := none, focused_panel := .remotes, files := [] }, none)
  | .remotes => (app, none)

/-- `Handler::handle_modal_submit` (Create/Edit modal). `take()` removes the
modal; an invalid or failed submission restores it with an error message; a
successful daemon call is followed by `load_remotes`. -/
def handle_modal_submit (app : App) (env : Env) : App × Option LFError :=
  match app.create_remote_modal with
  | none => (app, none)
  | some modal =>
    let app1 := { app with create_remote_modal := none }
    if !modal.is_valid then
      let rejected := { modal with error := some "Name and Type are required" }
      ({ app1 with create_remote_modal := some rejected }, none)
    else
      let params := if modal.path.isEmpty then [] else [("path", modal.path)]
      let callResult :=
        match modal.mode with
        | .create => env.createRemote modal.name modal.remote_type params
        | .edit => env.updateRemote modal.name params
      match callResult with
      | .error e =>
          let failed := { modal with error := some ("Error: " ++ e.message) }
          ({ app1 with create_remote_modal := some failed }, none)
      | .ok _ => app1.load_remotes env

/-- `Handler::handle_modal_key` (Create/Edit modal input routing). -/
def handle_modal_key (app : App) (env : Env) (key : KeyCode) :
    App × Option LFError :=
  match app.create_remote_modal with
  | none => (app, none)
  | some modal =>
    match key with
    | .esc => ({ app with create_remote_modal := none }, none)
    | .tab => ({ app with create_remote_modal := some modal.next_field }, none)
    | .backTab => ({ app with create_remote_modal := some modal.prev_field }, none)
    | .char c =>
        let typed := { modal.input_char c with error := none }
        ({ app with create_remote_modal := some typed }, none)
    | .backspace =>
        let erased := { modal.backspace with error := none }
        ({ app with create_remote_modal := some erased }, none)
    | .enter => handle_modal_submit app env
    | _ => (app, none)

/-- `Handler::handle_login_submit`: validate, install credentials on the
client, store them through the auth manager, then probe authentication by
reloading the remote list; a probe failure sets the modal error and clears the
client's credentials, success closes the modal. -/
def handle_login_submit (app : App) (env : Env) : App × Option LFError :=
  match app.login_modal with
  | none => (app, none)
  | some modal =>
    if !modal.is_valid then
      let rejected := { modal with error := some "All fields are required" }
      ({ app with login_modal := some rejected }, none)
    else
      let credentials :=
        match modal.auth_type with
        | .basic => Credentials.basic modal.username modal.password none
        | .bearer => Credentials.bearer modal.password none
      let app1 := { app with client := app.client.set_credentials credentials }
      match app1.auth_manager.set_daemon_credentials env credentials with
      | (mgr, .error e) =>
          let failedModal :=
            { modal with error := some ("Failed to save credentials: " ++ e.message) }
          let app2 := { app1 with
            auth_manager := mgr,
            login_modal := some failedModal }
          (app2, none)
      | (mgr, .ok _) =>
        let app2 := { app1 with auth_manager := mgr }
        match app2.load_remotes env with
        | (app3, none) => ({ app3 with login_modal := none }, none)
        | (app3, some e) =>
            let failedModal :=
              { modal with error := some ("Authentication failed: " ++ e.message) }
            let app4 := { app3 with
              login_modal := some failedModal,
              client := app3.client.clear_credentials }
            (app4, none)

/-- `Handler::handle_login_key` (Login modal input routing; `'l'` toggles
masking only while the password field is focused). -/
def handle_login_key (app : App) (env : Env) (key : KeyCode) :
    App × Option LFError :=
  match app.login_modal with
  | none => (app, none)
  | some modal =>
    match key with
    | .esc => ({ app with login_modal := none }, none)
    | .tab => ({ app with login_modal := some modal.next_field }, none)
    | .backTab => ({ app with login_modal := some modal.prev_field }, none)
    | .char c =>
        if c = 'l' ∧ modal.focus_field = LoginField.password then
          ({ app with login_modal := some modal.toggle_password_visibility }, none)
        else
          ({ app with login_modal := some { modal.input_char c with error := none } }, none)
    | .backspace =>
        ({ app with login_modal := some { modal.backspace with error := none } }, none)
    | .enter => handle_login_submit app env
    | _ => (app, none)

/-- `Handler::handle_key`: the input dispatcher. Modals take strict priority
(Login, then Confirm, then Create/Edit); otherwise the key drives panel
navigation. -/
def handle_key (app : App) (env : Env) (key : KeyCode) : App × Option LFError :=
  if app.login_modal.isSome then handle_login_key app env key
  else if app.confirm_modal.isSome then handle_confirm_key app env key
  else if app.create_remote_modal.isSome then handle_modal_key app env key
  else
    match key with
    | .char c =>
        if c = 'q' then ({ app with running := false }, none)
        else if c = 'a' ∧ app.focused_panel = Panel.remotes then
          ({ app with create_remote_modal := some (CreateRemoteModal.new .create) }, none)
        else if c = 'd' ∧ app.focused_panel = Panel.remotes then
          (handle_delete_remote app, none)
        else if c = 'e' ∧ app.focused_panel = Panel.remotes then
          (handle_edit_remote app, none)
        else if c = 'j' then (app.navigate_down, none)
        else if c = 'k' then (app.navigate_up, none)
        else (app, none)
    | .down => (app.navigate_down, none)
    | .up => (app.navigate_up, none)
    | .tab => (app.switch_panel, none)
    | .enter => handle_enter app env
    | .backspace => handle_backspace app env
    | _ => (app, none)

end Handler

/-- Iterate the dispatcher over a sequence of key events, each with the
environment (collaborator outcomes) in effect at that tick; the state a
handler leaves behind is carried forward whether or not it propagated an
error, matching the `&mut App` threading of the run loop. -/
def runKeys (app : App) (evs : List (Env × KeyCode)) : App :=
  evs.foldl (fun a ek => (Handler.handle_key a ek.1 ek.2).1) app

/-- How many modals are simultaneously open. -/
def App.modalCount (s : App) : Nat :=
  (if s.login_modal.isSome then 1 else 0) +
  (if s.confirm_modal.isSome then 1 else 0) +
  (if s.create_remote_modal.isSome then 1 else 0)

/-- The mutual-exclusion invariant on modals. -/
def App.atMostOneModal (s : App) : Prop :=
  s.modalCount ≤ 1

instance (s : App) : Decidable s.atMostOneModal := by
  unfold App.atMostOneModal; infer_instance

/-- An environment in which every collaborator call succeeds. -/
def okEnv : Env :=
  { listRemotes := .ok ["gdrive"],
    listDirectory := fun _ _ => .ok [],
    createRemote := fun _ _ _ => .ok (),
    updateRemote := fun _ _ => .ok (),
    deleteRemote := fun _ => .ok (),
    keyringStore := fun _ => .ok () }

/-- An environment in which directory listing is authorization-denied, the
delete call fails with an unrelated error, and the keyring is unavailable. -/
def failEnv : Env :=
  { listRemotes := .ok ["gdrive"],
    listDirectory := fun _ _ => .error .unauthorized,
    createRemote := fun _ _ _ => .ok (),
    updateRemote := fun _ _ => .ok (),
    deleteRemote := fun _ => .error (.other "boom"),
    keyringStore := fun _ => .error (.keyring "locked") }

/-- A base application state: one remote listed, no modal open. -/
def app0 : App :=
  { running := true, focused_panel := .remotes, remotes := ["gdrive"],
    remotes_selected := 0, current_remote := none, current_path := "",
    files := [], files_selected := 0, login_modal := none, confirm_modal := none,
    create_remote_modal := none, pending_delete_remote := none,
    client := { credentials := none },
    auth_manager := { daemon_credentials := none, remote_credentials := [],
                      auth_mode := .both } }

/-! ## Helper lemmas -/

theorem string_append_cancel_left {s t u : String} (h : s ++ t = s ++ u) :
    t = u := by
  have hd := congrArg String.data h
  rw [String.data_append, String.data_append] at hd
  exact String.ext (List.append_cancel_left hd)

theorem lastSlashIdx_eq_none {l : List Char} (h : '/' ∉ l) :
    lastSlashIdx l = none := by
  induction l with
  | nil => rfl
  | cons c rest ih =>
    have hc : c ≠ '/' := fun hc => h (hc ▸ List.mem_cons_self c rest)
    have hr : '/' ∉ rest := fun hr => h (List.mem_cons_of_mem c hr)
    simp [lastSlashIdx, ih hr, hc]

theorem lastSlashIdx_append {l₁ l₂ : List Char} (h : '/' ∉ l₂) :
    lastSlashIdx (l₁ ++ '/' :: l₂) = some l₁.length := by
  induction l₁ with
  | nil => simp [lastSlashIdx, lastSlashIdx_eq_none h]
  | cons c rest ih => simp [lastSlashIdx, ih]

/-- Reverting `p ++ "/" ++ name` by truncating at the last slash restores `p`,
provided `name` contains no slash. -/
theorem truncateAtLastSlash_append {p name : String} (h : '/' ∉ name.data) :
    truncateAtLastSlash (p ++ "/" ++ name) = p := by
  have hslash : ("/" : String).data = ['/'] := rfl
  have hd : (p ++ "/" ++ name).data = p.data ++ '/' :: name.data := by
    rw [String.data_append, String.data_append, hslash]
    simp
  unfold truncateAtLastSlash
  rw [hd, lastSlashIdx_append h]
  exact String.ext (List.take_left p.data ('/' :: name.data))

/-- Reverting `"/" ++ name` clears the path, provided `name` has no slash. -/
theorem truncateAtLastSlash_root {name : String} (h : '/' ∉ name.data) :
    truncateAtLastSlash ("/" ++ name) = "" := by
  have hd : (("/" : String) ++ name).data = '/' :: name.data := by
    rw [String.data_append]; rfl
  have hidx : lastSlashIdx ('/' :: name.data) = some 0 := by
    simpa using @lastSlashIdx_append [] name.data h
  unfold truncateAtLastSlash
  rw [hd, hidx]
  rfl

/-! ## C9: credential-store key derivation -/

/-- C9 counterexample: the claim asserts that distinct remotes and the global
scope map to distinct keys, but credentials for a remote literally named
`"daemon"` share the key `"lazyfile-daemon"` with the global daemon scope. -/
theorem keyring_key_daemon_collision :
    (Credentials.basic "u" "p" (some "daemon")).keyring_key =
      (Credentials.basic "u" "p" none).keyring_key ∧
    (Credentials.basic "u" "p" (some "daemon")).remote ≠
      (Credentials.basic "u" "p" none).remote := by
  constructor
  · rfl
  · decide

/-- C9 (amended): key derivation is stable and remote-name-addressable — the
global scope always maps to the fixed key `"lazyfile-daemon"`, a remote maps to
a key determined by its name, distinct remotes map to distinct keys, and a
per-remote key coincides with the global key only for the remote named
`"daemon"`. -/
theorem keyring_key_spec :
    (∀ c : Credentials, c.remote = none → c.keyring_key = "lazyfile-daemon") ∧
    (∀ (c : Credentials) (r : String), c.remote = some r →
        c.keyring_key = "lazyfile-" ++ r) ∧
    (∀ (c c' : Credentials) (r r' : String), c.remote = some r →
        c'.remote = some r' → c.keyring_key = c'.keyring_key → r = r') ∧
    (∀ (c c' : Credentials) (r : String), c.remote = some r → c'.remote = none →
        r ≠ "daemon" → c.keyring_key ≠ c'.keyring_key) := by
  refine ⟨?_, ?_, ?_, ?_⟩
  · intro c h; simp [Credentials.keyring_key, h]
  · intro c r h; simp [Credentials.keyring_key, h]
  · intro c c' r r' h h' hk
    rw [Credentials.keyring_key, Credentials.keyring_key, h, h'] at hk
    exact string_append_cancel_left hk
  · intro c c' r h h' hr hk
    rw [Credentials.keyring_key, Credentials.keyring_key, h, h'] at hk
    exact hr (@string_append_cancel_left "lazyfile-" r "daemon" hk)

/-- Witness for `keyring_key_spec` at concrete credentials. -/
theorem keyring_key_spec_witness :
    (Credentials.basic "u" "p" (some "gdrive")).keyring_key ≠
      (Credentials.basic "u" "p" none).keyring_key :=
  keyring_key_spec.2.2.2 _ _ "gdrive" rfl rfl (by decide)

/-! ## C10: redundant yes/no keypresses on the Confirm modal are no-ops -/

/-- C10: with the Confirm modal open (and the Login modal closed, so the
dispatcher routes to Confirm handling), pressing `'y'` while the choice is
already confirmed, or `'n'` while it is already not confirmed, leaves the whole
application state unchanged. -/
theorem confirm_redundant_choice_noop (app : App) (env : Env) (m : ConfirmModal)
    (hlogin : app.login_modal = none) (hconfirm : app.confirm_modal = some m) :
    (m.confirmed = true → Handler.handle_key app env (.char 'y') = (app, none)) ∧
    (m.confirmed = false → Handler.handle_key app env (.char 'n') = (app, none)) := by
  constructor <;> intro h <;>
    simp [Handler.handle_key, hlogin, hconfirm, Handler.handle_confirm_key,
      ConfirmModal.is_confirmed, h]

/-- Witness for `confirm_redundant_choice_noop`: a concrete confirmed modal on
which `'y'` is a no-op. -/
theorem confirm_redundant_choice_noop_witness :
    Handler.handle_key
        { app0 with confirm_modal := some ⟨"Delete Remote", "Delete 'gdrive'?", true⟩ }
        okEnv (.char 'y') =
      ({ app0 with confirm_modal := some ⟨"Delete Remote", "Delete 'gdrive'?", true⟩ },
       none) :=
  (confirm_redundant_choice_noop _ okEnv _ rfl rfl).1 rfl

/-! ## C4: denying a delete confirmation -/

/-- A state with the delete-confirmation modal open for `"gdrive"` (as
`handle_delete_remote` leaves it). -/
def confirmApp : App :=
  { app0 with
    pending_delete_remote := some "gdrive",
    confirm_modal := some (ConfirmModal.new "Delete Remote" "Delete 'gdrive'?") }

/-- C4 counterexample: with the Confirm modal open for `"gdrive"`, pressing the
deny key and then Enter closes the modal but leaves `pending_delete_remote`
still set to `"gdrive"` — the claim that it is cleared (`None`) fails, because
`pending_delete_remote.take()` sits after a short-circuiting
`modal.is_confirmed() &&` and is never evaluated on the not-confirmed path. -/
theorem deny_enter_keeps_pending :
    (runKeys confirmApp [(okEnv, .char 'n'), (okEnv, .enter)]).confirm_modal = none ∧
    (runKeys confirmApp [(okEnv, .char 'n'), (okEnv, .enter)]).pending_delete_remote
      = some "gdrive" := by
  decide

/-- C4 (amended): with the Confirm modal open for a pending delete target,
pressing the deny key and then Enter issues no delete call (for every
environment, the Enter step merely closes the modal and reports no error) and
the modal closes, but `pending_delete_remote` is retained, not cleared. -/
theorem deny_then_enter_no_delete (app : App) (env : Env) (m : ConfirmModal)
    (r : String) (hlogin : app.login_modal = none)
    (hconfirm : app.confirm_modal = some m)
    (hpending : app.pending_delete_remote = some r) :
    (Handler.handle_key app env (.char 'n')).1.pending_delete_remote = some r ∧
    (∃ m', (Handler.handle_key app env (.char 'n')).1.confirm_modal = some m' ∧
        m'.is_confirmed = false) ∧
    ∀ env', Handler.handle_key (Handler.handle_key app env (.char 'n')).1 env' .enter
      = ({ (Handler.handle_key app env (.char 'n')).1 with confirm_modal := none },
         none) := by
  have hstep : (Handler.handle_key app env (.char 'n')).1
      = if m.confirmed then { app with confirm_modal := some m.toggle } else app := by
    by_cases hm : m.confirmed <;>
      simp [Handler.handle_key, hlogin, hconfirm, Handler.handle_confirm_key,
        ConfirmModal.is_confirmed, hm]
  by_cases hm : m.confirmed
  · rw [hstep]
    simp only [hm, if_true]
    refine ⟨hpending, ⟨m.toggle, rfl, by simp [ConfirmModal.toggle,
      ConfirmModal.is_confirmed, hm]⟩, fun env' => ?_⟩
    simp [Handler.handle_key, hlogin, Handler.handle_confirm_key,
      ConfirmModal.is_confirmed, ConfirmModal.toggle, hm]
  · rw [hstep]
    simp only [hm, if_false]
    refine ⟨hpending, ⟨m, hconfirm, by simp [ConfirmModal.is_confirmed, hm]⟩,
      fun env' => ?_⟩
    simp [Handler.handle_key, hlogin, hconfirm, Handler.handle_confirm_key,
      ConfirmModal.is_confirmed, hm]

/-- Witness for `deny_then_enter_no_delete` on the concrete `confirmApp`. -/
theorem deny_then_enter_no_delete_witness :
    (Handler.handle_key confirmApp okEnv (.char 'n')).1.pending_delete_remote
      = some "gdrive" :=
  (deny_then_enter_no_delete confirmApp okEnv _ "gdrive" rfl rfl rfl).1

/-! ## C3: Enter on a confirmed delete -/

/-- A state with the delete-confirmation modal open for `"gdrive"` and the
choice already toggled to confirmed. -/
def confirmedApp : App :=
  { app0 with
    pending_delete_remote := some "gdrive",
    confirm_modal := some ⟨"Delete Remote", "Delete 'gdrive'?", true⟩ }

/-- C3 counterexample: with the Confirm modal open, confirmed, and a pending
delete target, if the delete call fails, Enter does **not** close the modal
and does **not** refresh the remote list — the `?` on `delete_remote` returns
before `confirm_modal = None` is reached, so "the modal always closes after an
Enter on the confirmed path, whether the delete succeeded or failed" is false. -/
theorem confirmed_delete_failure_keeps_modal_open :
    failEnv.deleteRemote "gdrive" = .error (.other "boom") ∧
    ((Handler.handle_key confirmedApp failEnv .enter).1.confirm_modal).isSome = true ∧
    (Handler.handle_key confirmedApp failEnv .enter).2 = some (.other "boom") :=
  ⟨rfl, rfl, rfl⟩

/-- C3 (amended): on Enter with the Confirm modal open, confirmed, and a
pending delete target, `pending_delete_remote` is always taken (cleared); if
the delete call fails, the error propagates with the modal still open and the
remote list untouched; if delete succeeds and the refresh succeeds, the list is
refreshed and the modal closes; if delete succeeds but the refresh fails, the
error propagates with the modal still open. -/
theorem confirmed_enter_outcomes (app : App) (env : Env) (m : ConfirmModal)
    (r : String) (hlogin : app.login_modal = none)
    (hconfirm : app.confirm_modal = some m) (hc : m.confirmed = true)
    (hpending : app.pending_delete_remote = some r) :
    (Handler.handle_key app env .enter).1.pending_delete_remote = none ∧
    (∀ e, env.deleteRemote r = .error e →
        Handler.handle_key app env .enter
          = ({ app with pending_delete_remote := none }, some e)) ∧
    (∀ l, env.deleteRemote r = .ok () → env.listRemotes = .ok l →
        (Handler.handle_key app env .enter).1.confirm_modal = none ∧
        (Handler.handle_key app env .enter).1.remotes = l ∧
        (Handler.handle_key app env .enter).2 = none) ∧
    (∀ e, env.deleteRemote r = .ok () → env.listRemotes = .error e →
        (Handler.handle_key app env .enter).1.confirm_modal = some m ∧
        (Handler.handle_key app env .enter).2 = some e) := by
  have hkey : Handler.handle_key app env .enter
      = Handler.handle_confirm_key app env .enter := by
    simp [Handler.handle_key, hlogin, hconfirm]
  rw [hkey]
  unfold Handler.handle_confirm_key
  rw [hconfirm]
  simp only [ConfirmModal.is_confirmed, hc, if_true, hpending]
  refine ⟨?_, ?_, ?_, ?_⟩
  · rcases hdel : env.deleteRemote r with e | u
    · simp
    · rcases hrem : env.listRemotes with e | l <;> simp [App.load_remotes, hrem]
  · intro e he
    simp [he]
  · intro l hdel hrem
    simp [hdel, App.load_remotes, hrem]
  · intro e hdel hrem
    simp [hdel, App.load_remotes, hrem, hconfirm]

/-- Witness for `confirmed_enter_outcomes`: the failing-delete branch on the
concrete `confirmedApp`. -/
theorem confirmed_enter_outcomes_witness :
    Handler.handle_key confirmedApp failEnv .enter
      = ({ confirmedApp with pending_delete_remote := none },
         some (.other "boom")) :=
  (confirmed_enter_outcomes confirmedApp failEnv _ "gdrive" rfl rfl rfl rfl).2.1
    (.other "boom") rfl

/-! ## C7 and C8: Login-modal submission -/

/-- The credentials `handle_login_submit` builds from a login modal's fields. -/
def LoginModal.to_credentials (m : LoginModal) : Credentials :=
  match m.auth_type with
  | .basic => Credentials.basic m.username m.password none
  | .bearer => Credentials.bearer m.password none

/-- A state whose Login modal has valid Basic-auth fields filled in. -/
def loginApp : App :=
  { app0 with
    login_modal := some { LoginModal.new_basic with username := "u", password := "p" } }

/-- C7 counterexample: submitting valid credentials while the keyring write
fails (`failEnv.keyringStore` errors) but the authentication probe succeeds
ends with the Login modal closed — no user-visible error was ever set for the
persistence failure, because `AuthManager::set_daemon_credentials` only logs
the keyring error and returns `Ok`, making the handler's error branch dead. -/
theorem persist_failure_sets_no_error :
    failEnv.keyringStore "lazyfile-daemon" = .error (.keyring "locked") ∧
    (Handler.handle_key loginApp failEnv .enter).1.login_modal = none ∧
    (Handler.handle_key loginApp failEnv .enter).1.client.credentials
      = some (Credentials.basic "u" "p" none) :=
  ⟨rfl, rfl, rfl⟩

/-- C7 (amended): on submission with valid fields, a Credential-Store
persistence failure is swallowed (logged only): whatever the keyring outcome,
no persistence error is surfaced, the credentials are installed on the client
and the auth manager, and — when the authentication probe succeeds — the
modal closes with the in-memory credentials still usable for the session. -/
theorem persist_failure_swallowed (app : App) (env : Env) (m : LoginModal)
    (l : List String) (hmodal : app.login_modal = some m)
    (hvalid : m.is_valid = true) (hprobe : env.listRemotes = .ok l) :
    (Handler.handle_key app env .enter).1.login_modal = none ∧
    (Handler.handle_key app env .enter).1.client.credentials
      = some m.to_credentials ∧
    (Handler.handle_key app env .enter).1.auth_manager.daemon_credentials
      = some m.to_credentials ∧
    (Handler.handle_key app env .enter).2 = none := by
  have hkey : Handler.handle_key app env .enter
      = Handler.handle_login_submit app env := by
    simp [Handler.handle_key, hmodal, Handler.handle_login_key]
  rw [hkey]
  unfold Handler.handle_login_submit
  rw [hmodal]
  simp [hvalid, AuthManager.set_daemon_credentials, App.load_remotes, hprobe,
    LoginModal.to_credentials, RcloneClient.set_credentials]

/-- Witness for `persist_failure_swallowed` on `loginApp` under the
keyring-failing environment. -/
theorem persist_failure_swallowed_witness :
    (Handler.handle_key loginApp failEnv .enter).1.login_modal = none :=
  (persist_failure_swallowed loginApp failEnv _ ["gdrive"] rfl rfl rfl).1

/-- C8: on submission with valid fields, a failing authentication probe leaves
the Login modal open with an inline error and rolls the client's installed
credentials back to absent; a successful probe closes the modal. -/
theorem login_probe_outcome (app : App) (env : Env) (m : LoginModal)
    (hmodal : app.login_modal = some m) (hvalid : m.is_valid = true) :
    (∀ e, env.listRemotes = .error e →
        (Handler.handle_key app env .enter).1.client.credentials = none ∧
        (Handler.handle_key app env .enter).1.login_modal
          = some { m with error := some ("Authentication failed: " ++ e.message) }) ∧
    (∀ l, env.listRemotes = .ok l →
        (Handler.handle_key app env .enter).1.login_modal = none) := by
  have hkey : Handler.handle_key app env .enter
      = Handler.handle_login_submit app env := by
    simp [Handler.handle_key, hmodal, Handler.handle_login_key]
  rw [hkey]
  unfold Handler.handle_login_submit
  rw [hmodal]
  constructor
  · intro e he
    simp [hvalid, AuthManager.set_daemon_credentials, App.load_remotes, he,
      RcloneClient.clear_credentials]
  · intro l hl
    simp [hvalid, AuthManager.set_daemon_credentials, App.load_remotes, hl]

/-- Witness for `login_probe_outcome`: a probe rejected as unauthorized leaves
the modal open with an inline error and clears the client credentials. -/
theorem login_probe_outcome_witness :
    (Handler.handle_key loginApp
        { failEnv with listRemotes := .error .unauthorized } .enter).1.client.credentials
      = none :=
  ((login_probe_outcome loginApp _ _ rfl rfl).1 .unauthorized rfl).1

/-! ## C6: selecting a remote (Enter on the Remotes panel) -/

/-- C6: with no modal open, the Remotes panel focused and a remote selected,
Enter sets that remote as current; if the directory listing is
authorization-denied, `current_remote` is rolled back to `none` and a Login
modal is open; on success the focused panel becomes Files. -/
theorem select_remote_outcomes (app : App) (env : Env) (r : String)
    (hlogin : app.login_modal = none) (hconfirm : app.confirm_modal = none)
    (hcreate : app.create_remote_modal = none)
    (hpanel : app.focused_panel = .remotes)
    (hsel : app.remotes.get? app.remotes_selected = some r) :
    (env.listDirectory r "" = .error .unauthorized →
        (Handler.handle_key app env .enter).1.current_remote = none ∧
        (Handler.handle_key app env .enter).1.login_modal
          = some LoginModal.new_basic) ∧
    (∀ l, env.listDirectory r "" = .ok l →
        (Handler.handle_key app env .enter).1.focused_panel = .files ∧
        (Handler.handle_key app env .enter).1.current_remote = some r ∧
        (Handler.handle_key app env .enter).1.current_path = "") := by
  have hkey : Handler.handle_key app env .enter = Handler.handle_enter app env := by
    simp [Handler.handle_key, hlogin, hconfirm, hcreate]
  rw [hkey]
  unfold Handler.handle_enter
  rw [hpanel]
  simp only [hsel]
  constructor
  · intro hfail
    simp [App.load_files, hfail]
  · intro l hok
    simp [App.load_files, hok]

/-- Witness for `select_remote_outcomes`: the auth-denied branch on the base
state under `failEnv`. -/
theorem select_remote_outcomes_witness :
    (Handler.handle_key app0 failEnv .enter).1.current_remote = none ∧
    (Handler.handle_key app0 failEnv .enter).1.login_modal
      = some LoginModal.new_basic :=
  (select_remote_outcomes app0 failEnv "gdrive" rfl rfl rfl rfl rfl).1 rfl

/-! ## C5: entering a directory (Enter on the Files panel) -/

/-- A state browsing remote `"gdrive"` at path `"a"`, with a directory entry
selected whose name contains a slash. -/
def slashDirApp : App :=
  { app0 with
    focused_panel := .files, current_remote := some "gdrive",
    current_path := "a", files := [⟨"b/c", true⟩], files_selected := 0 }

/-- C5 counterexample: the claim promises `current_path` is restored exactly
after an authorization-denied descent, but the code reverts by truncating the
*extended* path at its last slash, which restores the old path only when the
entry name itself contains no `'/'`. For the entry named `"b/c"` under path
`"a"`, the candidate is `"a/b/c"` and the revert leaves `"a/b"` ≠ `"a"`, even
though the Login modal did open. -/
theorem auth_denied_descent_slash_name :
    slashDirApp.current_path = "a" ∧
    (Handler.handle_key slashDirApp failEnv .enter).1.current_path = "a/b" ∧
    ((Handler.handle_key slashDirApp failEnv .enter).1.login_modal).isSome = true :=
  ⟨rfl, rfl, rfl⟩

/-- C5 (amended): with no modal open, the Files panel focused, a directory
entry selected whose name contains no `'/'`, and the listing of the extended
candidate path authorization-denied, handling Enter leaves `current_path`
exactly as it was before the keypress and opens a Login modal. -/
theorem auth_denied_descent_rollback (app : App) (env : Env) (item : FileItem)
    (r : String) (hlogin : app.login_modal = none)
    (hconfirm : app.confirm_modal = none) (hcreate : app.create_remote_modal = none)
    (hpanel : app.focused_panel = .files)
    (hremote : app.current_remote = some r)
    (hsel : app.files.get? app.files_selected = some item)
    (hdir : item.is_dir = true)
    (hnoslash : '/' ∉ item.name.data)
    (hfail : env.listDirectory r
        (if app.current_path.isEmpty then "/" ++ item.name
         else app.current_path ++ "/" ++ item.name) = .error .unauthorized) :
    (Handler.handle_key app env .enter).1.current_path = app.current_path ∧
    (Handler.handle_key app env .enter).1.login_modal = some LoginModal.new_basic := by
  have hkey : Handler.handle_key app env .enter = Handler.handle_enter app env := by
    simp [Handler.handle_key, hlogin, hconfirm, hcreate]
  rw [hkey]
  unfold Handler.handle_enter
  rw [hpanel]
  simp only [hsel, hdir, if_true]
  by_cases hp : app.current_path.isEmpty
  · rw [if_pos hp] at hfail
    have hempty : app.current_path = "" := (String.isEmpty_iff _).mp hp
    simp [hp, App.load_files, hremote, hfail, truncateAtLastSlash_root hnoslash,
      hempty]
  · rw [if_neg hp] at hfail
    simp [hp, App.load_files, hremote, hfail, truncateAtLastSlash_append hnoslash]

/-- A state browsing remote `"gdrive"` at path `"a"` with a slash-free
directory entry selected. -/
def plainDirApp : App :=
  { app0 with
    focused_panel := .files, current_remote := some "gdrive",
    current_path := "a", files := [⟨"b", true⟩], files_selected := 0 }

/-- Witness for `auth_denied_descent_rollback`: a slash-free directory entry
under the same state shape as the counterexample. -/
theorem auth_denied_descent_rollback_witness :
    (Handler.handle_key plainDirApp failEnv .enter).1.current_path = "a" :=
  (auth_denied_descent_rollback plainDirApp failEnv ⟨"b", true⟩ "gdrive" rfl rfl rfl
    rfl rfl rfl rfl (by decide) rfl).1

/-! ## C2: dispatcher priority shields panel shortcuts -/

/-- C2: the dispatcher routes by strict priority — Login modal open routes to
Login handling, else Confirm modal open to Confirm handling, else Create/Edit
modal open to that handling — and consequently, while any modal is open, the
panel shortcut keys `'a'`, `'d'`, `'e'` never open a create modal, never open a
delete confirmation (the Confirm modal stays closed and the pending delete
target untouched), and never open an edit modal (no Create/Edit modal appears
and an already-open one keeps its mode). -/
theorem modal_priority_shields_shortcuts (app : App) (env : Env) :
    (∀ k, app.login_modal.isSome →
        Handler.handle_key app env k = Handler.handle_login_key app env k) ∧
    (∀ k, app.login_modal = none → app.confirm_modal.isSome →
        Handler.handle_key app env k = Handler.handle_confirm_key app env k) ∧
    (∀ k, app.login_modal = none → app.confirm_modal = none →
        app.create_remote_modal.isSome →
        Handler.handle_key app env k = Handler.handle_modal_key app env k) ∧
    (∀ c, (c = 'a' ∨ c = 'd' ∨ c = 'e') →
        (app.login_modal.isSome ∨ app.confirm_modal.isSome ∨
          app.create_remote_modal.isSome) →
        (app.confirm_modal = none →
          (Handler.handle_key app env (.char c)).1.confirm_modal = none) ∧
        (app.create_remote_modal = none →
          (Handler.handle_key app env (.char c)).1.create_remote_modal = none) ∧
        (Handler.handle_key app env (.char c)).1.pending_delete_remote
          = app.pending_delete_remote ∧
        Option.map CreateRemoteModal.mode
            (Handler.handle_key app env (.char c)).1.create_remote_modal
          = Option.map CreateRemoteModal.mode app.create_remote_modal) := by
  refine ⟨?_, ?_, ?_, ?_⟩
  · intro k h
    simp [Handler.handle_key, h]
  · intro k h h'
    simp [Handler.handle_key, h, h']
  · intro k h h' h''
    simp [Handler.handle_key, h, h', h'']
  · intro c hc hmodal
    have hchar : c ≠ 'l' ∧ c ≠ 'y' ∧ c ≠ 'n' := by
      rcases hc with h | h | h <;> subst h <;> refine ⟨by decide, by decide, by decide⟩
    rcases hl : app.login_modal with _ | lm
    · rcases hcf : app.confirm_modal with _ | cm
      · rcases hcr : app.create_remote_modal with _ | crm
        · rcases hmodal with h | h | h <;>
            simp [hl, hcf, hcr] at h
        · simp [Handler.handle_key, hl, hcf, hcr, Handler.handle_modal_key,
            CreateRemoteModal.input_char]
          rcases crm.focus_field with _ | _ | _ <;>
            simp [CreateRemoteModal.input_char]
      · by_cases hyn : c = 'y' ∨ c = 'n'
        · rcases hyn with h | h <;> rcases hchar with ⟨_, h1, h2⟩ <;>
            [exact absurd h h1; exact absurd h h2]
        · simp [Handler.handle_key, hl, hcf, Handler.handle_confirm_key, hyn]
    · simp only [Handler.handle_key, hl, Option.isSome_some, if_true]
      unfold Handler.handle_login_key
      rw [hl]
      by_cases hfoc : c = 'l' ∧ lm.focus_field = LoginField.password
      · exact absurd hfoc.1 hchar.1
      · simp [hfoc, hl]

/-- Witness for `modal_priority_shields_shortcuts`: with the Confirm modal
open, pressing `'a'` leaves the Create/Edit modal closed. -/
theorem modal_priority_shields_shortcuts_witness :
    (Handler.handle_key confirmApp okEnv (.char 'a')).1.create_remote_modal
      = none :=
  (((modal_priority_shields_shortcuts confirmApp okEnv).2.2.2 'a' (Or.inl rfl)
      (Or.inr (Or.inl rfl))).2.1) rfl

/-! ## C1: mutual exclusion of modals -/

theorem load_remotes_modal_fields (app : App) (env : Env) :
    (app.load_remotes env).1.login_modal = app.login_modal ∧
    (app.load_remotes env).1.confirm_modal = app.confirm_modal ∧
    (app.load_remotes env).1.create_remote_modal = app.create_remote_modal := by
  unfold App.load_remotes
  rcases env.listRemotes with e | l <;> simp

theorem load_files_modal_fields (app : App) (env : Env) :
    (app.load_files env).1.login_modal = app.login_modal ∧
    (app.load_files env).1.confirm_modal = app.confirm_modal ∧
    (app.load_files env).1.create_remote_modal = app.create_remote_modal := by
  unfold App.load_files
  rcases hr : app.current_remote with _ | r
  · simp
  · rcases hd : env.listDirectory r app.current_path with e | l <;> simp [hd]

theorem handle_login_key_other_modals (app : App) (env : Env) (k : KeyCode) :
    (Handler.handle_login_key app env k).1.confirm_modal = app.confirm_modal ∧
    (Handler.handle_login_key app env k).1.create_remote_modal
      = app.create_remote_modal := by
  unfold Handler.handle_login_key
  rcases hl : app.login_modal with _ | m
  · simp
  · cases k with
    | char c =>
        by_cases hf : c = 'l' ∧ m.focus_field = LoginField.password <;> simp [hf]
    | enter =>
        unfold Handler.handle_login_submit
        rw [hl]
        by_cases hv : m.is_valid
        · simp only [hv, Bool.not_true, Bool.false_eq_true, if_false,
            AuthManager.set_daemon_credentials]
          rcases hr : env.listRemotes with e | l <;>
            simp [App.load_remotes, hr]
        · simp [hv]
    | _ => simp

theorem handle_confirm_key_other_modals (app : App) (env : Env) (k : KeyCode) :
    (Handler.handle_confirm_key app env k).1.login_modal = app.login_modal ∧
    (Handler.handle_confirm_key app env k).1.create_remote_modal
      = app.create_remote_modal := by
  unfold Handler.handle_confirm_key
  rcases hl : app.confirm_modal with _ | m
  · simp
  · cases k with
    | char c =>
        by_cases hy : c = 'y' ∨ c = 'n'
        · by_cases ht : (c = 'y') ≠ (m.is_confirmed = true) <;> simp [hy, ht]
        · simp [hy]
    | enter =>
        by_cases hc : m.is_confirmed
        · simp only [hc, if_true]
          rcases hp : app.pending_delete_remote with _ | r
          · simp
          · rcases hd : env.deleteRemote r with e | u
            · simp [hd]
            · rcases hr : env.listRemotes with e | l <;>
                simp [hd, App.load_remotes, hr]
        · simp [hc]
    | _ => simp

theorem handle_modal_key_other_modals (app : App) (env : Env) (k : KeyCode) :
    (Handler.handle_modal_key app env k).1.login_modal = app.login_modal ∧
    (Handler.handle_modal_key app env k).1.confirm_modal = app.confirm_modal := by
  unfold Handler.handle_modal_key
  rcases hl : app.create_remote_modal with _ | m
  · simp
  · cases k with
    | enter =>
        unfold Handler.handle_modal_submit
        rw [hl]
        by_cases hv : m.is_valid
        · simp only [hv, Bool.not_true, Bool.false_eq_true, if_false]
          rcases hm : m.mode with _ | _
          · rcases hc : env.createRemote m.name m.remote_type
                (if m.path.isEmpty then [] else [("path", m.path)]) with e | u
            · simp [hc]
            · rcases hr : env.listRemotes with e' | l <;>
                simp [hc, App.load_remotes, hr]
          · rcases hc : env.updateRemote m.name
                (if m.path.isEmpty then [] else [("path", m.path)]) with e | u
            · simp [hc]
            · rcases hr : env.listRemotes with e' | l <;>
                simp [hc, App.load_remotes, hr]
        · simp [hv]
    | _ => simp

theorem handle_enter_modal_fields (app : App) (env : Env) :
    (Handler.handle_enter app env).1.confirm_modal = app.confirm_modal ∧
    (Handler.handle_enter app env).1.create_remote_modal = app.create_remote_modal ∧
    ((Handler.handle_enter app env).1.login_modal = app.login_modal ∨
      (Handler.handle_enter app env).1.login_modal = some LoginModal.new_basic) := by
  unfold Handler.handle_enter
  rcases hp : app.focused_panel with _ | _
  · rcases hs : app.remotes.get? app.remotes_selected with _ | r
    · simp
    · rcases hd : env.listDirectory r "" with e | l
      · rcases e with _ | msg | msg <;> simp [App.load_files, hd]
      · simp [App.load_files, hd]
  · rcases hs : app.files.get? app.files_selected with _ | item
    · simp
    · by_cases hdir : item.is_dir = true
      · rcases hd : env.listDirectory
            (match app.current_remote with | none => "" | some r => r)
            (if app.current_path.isEmpty then "/" ++ item.name
             else app.current_path ++ "/" ++ item.name) with e | l
        · rcases hr : app.current_remote with _ | r
          · simp [hs, hdir, App.load_files, hr]
          · simp only [hr] at hd
            rcases e with _ | msg | msg <;> simp [hs, hdir, App.load_files, hr, hd]
        · rcases hr : app.current_remote with _ | r
          · simp [hs, hdir, App.load_files, hr]
          · simp only [hr] at hd
            simp [hs, hdir, App.load_files, hr, hd]
      · simp [hs, hdir]

theorem handle_backspace_modal_fields (app : App) (env : Env) :
    (Handler.handle_backspace app env).1.login_modal = app.login_modal ∧
    (Handler.handle_backspace app env).1.confirm_modal = app.confirm_modal ∧
    (Handler.handle_backspace app env).1.create_remote_modal
      = app.create_remote_modal := by
  unfold Handler.handle_backspace
  rcases hp : app.focused_panel with _ | _
  · simp
  · by_cases he : !app.current_path.isEmpty
    · simp only [he, if_true]
      exact load_files_modal_fields _ env
    · simp [he]

theorem navigate_modal_fields (app : App) :
    app.navigate_down.login_modal = app.login_modal ∧
    app.navigate_down.confirm_modal = app.confirm_modal ∧
    app.navigate_down.create_remote_modal = app.create_remote_modal ∧
    app.navigate_up.login_modal = app.login_modal ∧
    app.navigate_up.confirm_modal = app.confirm_modal ∧
    app.navigate_up.create_remote_modal = app.create_remote_modal ∧
    app.switch_panel.login_modal = app.login_modal ∧
    app.switch_panel.confirm_modal = app.confirm_modal ∧
    app.switch_panel.create_remote_modal = app.create_remote_modal := by
  unfold App.navigate_down App.navigate_up App.switch_panel
  rcases hp : app.focused_panel with _ | _ <;>
    simp only [hp] <;>
    refine ⟨?_, ?_, ?_, ?_, ?_, ?_, ?_, ?_, ?_⟩ <;>
    (try split) <;> simp

theorem atMostOneModal_iff (s : App) : s.atMostOneModal ↔
    (s.login_modal = none ∧ s.confirm_modal = none) ∨
    (s.login_modal = none ∧ s.create_remote_modal = none) ∨
    (s.confirm_modal = none ∧ s.create_remote_modal = none) := by
  unfold App.atMostOneModal App.modalCount
  rcases ha : s.login_modal with _ | a <;> rcases hb : s.confirm_modal with _ | b <;>
    rcases hc : s.create_remote_modal with _ | c <;> simp [ha, hb, hc]

/-- One dispatcher step preserves modal mutual exclusion. -/
theorem handle_key_atMostOne (app : App) (env : Env) (k : KeyCode)
    (h : app.atMostOneModal) :
    ((Handler.handle_key app env k).1).atMostOneModal := by
  rcases hl : app.login_modal with _ | lm
  · rcases hcf : app.confirm_modal with _ | cm
    · rcases hcr : app.create_remote_modal with _ | crm
      · rw [atMostOneModal_iff]
        simp only [Handler.handle_key, hl, hcf, hcr, Option.isSome_none,
          Bool.false_eq_true, if_false]
        cases k with
        | char c =>
            by_cases h1 : c = 'q'
            · simp [h1, hl, hcf]
            · by_cases h2 : c = 'a' ∧ app.focused_panel = Panel.remotes
              · simp [h1, h2, hl, hcf]
              · by_cases h3 : c = 'd' ∧ app.focused_panel = Panel.remotes
                · simp only [h1, h2, h3, if_false, if_true]
                  unfold Handler.handle_delete_remote
                  rcases hsel : app.remotes.get? app.remotes_selected with _ | r <;>
                    simp [hsel, hl, hcf, hcr]
                · by_cases h4 : c = 'e' ∧ app.focused_panel = Panel.remotes
                  · simp only [h1, h2, h3, h4, if_false, if_true]
                    unfold Handler.handle_edit_remote
                    rcases hsel : app.remotes.get? app.remotes_selected with _ | r <;>
                      simp [hsel, hl, hcf, hcr]
                  · by_cases h5 : c = 'j'
                    · have hn := navigate_modal_fields app
                      simp [h1, h2, h3, h4, h5, hn.1.trans hl, hn.2.1.trans hcf]
                    · by_cases h6 : c = 'k'
                      · have hn := navigate_modal_fields app
                        simp [h1, h2, h3, h4, h5, h6, hn.2.2.2.1.trans hl,
                          hn.2.2.2.2.1.trans hcf]
                      · simp [h1, h2, h3, h4, h5, h6, hl, hcf]
        | down =>
            have hn := navigate_modal_fields app
            simp [hn.1.trans hl, hn.2.1.trans hcf]
        | up =>
            have hn := navigate_modal_fields app
            simp [hn.2.2.2.1.trans hl, hn.2.2.2.2.1.trans hcf]
        | tab =>
            have hn := navigate_modal_fields app
            simp [hn.2.2.2.2.2.2.1.trans hl, hn.2.2.2.2.2.2.2.1.trans hcf]
        | enter =>
            have he := handle_enter_modal_fields app env
            exact Or.inr (Or.inr ⟨he.1.trans hcf, he.2.1.trans hcr⟩)
        | backspace =>
            have hb := handle_backspace_modal_fields app env
            exact Or.inl ⟨hb.1.trans hl, hb.2.1.trans hcf⟩
        | backTab => simp [hl, hcf]
        | esc => simp [hl, hcf]
        | left => simp [hl, hcf]
        | right => simp [hl, hcf]
        | otherKey => simp [hl, hcf]
      · have heq : Handler.handle_key app env k = Handler.handle_modal_key app env k := by
          simp [Handler.handle_key, hl, hcf, hcr]
        rw [heq, atMostOneModal_iff]
        have h2 := handle_modal_key_other_modals app env k
        exact Or.inl ⟨h2.1.trans hl, h2.2.trans hcf⟩
    · have hcr : app.create_remote_modal = none := by
        rw [atMostOneModal_iff] at h
        rcases h with ⟨h1, h2⟩ | ⟨h1, h2⟩ | ⟨h1, h2⟩
        · rw [hcf] at h2; cases h2
        · exact h2
        · rw [hcf] at h1; cases h1
      have heq : Handler.handle_key app env k = Handler.handle_confirm_key app env k := by
        simp [Handler.handle_key, hl, hcf]
      rw [heq, atMostOneModal_iff]
      have h2 := handle_confirm_key_other_modals app env k
      exact Or.inr (Or.inl ⟨h2.1.trans hl, h2.2.trans hcr⟩)
  · have hrest : app.confirm_modal = none ∧ app.create_remote_modal = none := by
      rw [atMostOneModal_iff] at h
      rcases h with ⟨h1, h2⟩ | ⟨h1, h2⟩ | ⟨h1, h2⟩
      · rw [hl] at h1; cases h1
      · rw [hl] at h1; cases h1
      · exact ⟨h1, h2⟩
    have heq : Handler.handle_key app env k = Handler.handle_login_key app env k := by
      simp [Handler.handle_key, hl]
    rw [heq, atMostOneModal_iff]
    have h2 := handle_login_key_other_modals app env k
    exact Or.inr (Or.inr ⟨h2.1.trans hrest.1, h2.2.trans hrest.2⟩)

/-- C1: starting from any state satisfying modal mutual exclusion (as every
reachable state does — the initial state has no modal open), every sequence of
key events processed by the dispatcher, under arbitrary collaborator outcomes
at each tick, keeps at most one of the three modals active: no handler ever
opens one modal while another is open. -/
theorem modal_mutual_exclusion_invariant (app : App) (evs : List (Env × KeyCode))
    (h : app.atMostOneModal) : (runKeys app evs).atMostOneModal := by
  induction evs generalizing app with
  | nil => exact h
  | cons ek rest ih => exact ih _ (handle_key_atMostOne app ek.1 ek.2 h)

/-- Witness for `modal_mutual_exclusion_invariant`: a concrete run that opens
a Login modal via an auth-denied Enter and then feeds it more keys. -/
theorem modal_mutual_exclusion_invariant_witness :
    (runKeys app0 [(failEnv, .enter), (okEnv, .char 'a'),
      (okEnv, .char 'd'), (okEnv, .enter)]).atMostOneModal :=
  modal_mutual_exclusion_invariant app0 _ (by decide)

end Lazyfile
